import Mathlib

/-!
Verification development for the Kenang subscription and payment lifecycle
engine. The definitions below are a shallow embedding of the Python sources:

  app/data/subscription_plans.py      (plan catalog)
  app/services/payment_service.py     (signature check, notification parsing)
  app/services/subscription_service.py (create, cancel, expire, feature gate)
  app/api/v1/subscriptions/router.py  (the midtrans_webhook handler)

Modelling conventions:
  - Timestamps are natural numbers counting days (the code only ever adds
    whole numbers of days with timedelta and compares datetimes).
  - Database rows are structure values held in lists; mutating an ORM object
    in place is modelled by replacing the first matching list element, which
    is what the SQLAlchemy identity map guarantees for a found row.
  - The SHA-512 hex digest is an abstract parameter (sha512hex); every
    theorem about signatures only needs equality or inequality of digests.
  - Exceptions are an explicit error type; the webhook handler catches every
    exception and answers with a structured error body. The str rendering of
    a caught Python exception is abstracted by str_of_error.
  - Session semantics: app/db/session.py is not part of the sources given,
    so the lifecycle of the request-scoped session is modelled from the
    spec, which demands that mutations become durable only at commit and
    that a failure partway rolls back entirely. The webhook definition
    therefore returns the last committed database state on every error path.
  - Descriptive plan fields (names, feature description strings, limits) are
    omitted from the Plan structure; no claim and no embedded code path
    reads them.
-/

/-- Plan catalog entry, from app/data/subscription_plans.py.
Only the fields the subscription engine reads are carried. -/
structure SubscriptionPlan where
  plan_id : String
  price_idr : Nat
  billing_cycle : String
deriving Repr, DecidableEq

/-- The static plan catalog SUBSCRIPTION_PLANS, in dict insertion order. -/
def SUBSCRIPTION_PLANS : List SubscriptionPlan :=
  [ { plan_id := "free", price_idr := 0, billing_cycle := "lifetime" },
    { plan_id := "personal", price_idr := 29000, billing_cycle := "monthly" },
    { plan_id := "plus", price_idr := 79000, billing_cycle := "monthly" },
    { plan_id := "premium", price_idr := 149000, billing_cycle := "monthly" },
    { plan_id := "cinta", price_idr := 299000, billing_cycle := "one_time" },
    { plan_id := "keluarga_yearly", price_idr := 499000, billing_cycle := "yearly" },
    { plan_id := "alumni", price_idr := 50000, billing_cycle := "per_person_yearly" } ]

/-- get_plan from app/data/subscription_plans.py (dict lookup by plan id). -/
def get_plan (plan_id : String) : Option SubscriptionPlan :=
  SUBSCRIPTION_PLANS.find? (fun p => p.plan_id == plan_id)

/-- get_all_plans from app/data/subscription_plans.py. -/
def get_all_plans : List SubscriptionPlan :=
  SUBSCRIPTION_PLANS

/-- A payments table row, from app/db/models/subscription.py (class Payment). -/
structure Payment where
  id : String
  user_id : Option String
  subscription_id : Option String
  amount_idr : Nat
  payment_method : Option String
  payment_provider : Option String
  payment_provider_transaction_id : String
  status : String
  completed_at : Option Nat
deriving Repr, DecidableEq

/-- A subscriptions table row, from app/db/models/subscription.py
(class Subscription). -/
structure Subscription where
  id : String
  user_id : String
  plan_id : String
  status : String
  payment_provider : String
  current_period_start : Nat
  current_period_end : Nat
  cancelled_at : Option Nat
deriving Repr, DecidableEq

/-- A users table row, from app/db/models/user.py; only the fields the
subscription engine reads are carried. -/
structure User where
  id : String
  subscription_tier : String
deriving Repr, DecidableEq

/-- The persistent state the subscription engine touches. -/
structure Db where
  payments : List Payment
  subscriptions : List Subscription
  users : List User
deriving Repr, DecidableEq

/-- The exception taxonomy of app/core/exceptions.py, restricted to the
constructors the subscription engine raises. -/
inductive ServiceError where
  | notFound (message : String)
  | forbidden (message : String)
  | business (code : String) (message : String)
deriving Repr, DecidableEq

/-- Rendering of a caught exception into the webhook response message;
abstracts the str call of the except branch of midtrans_webhook. -/
def str_of_error : ServiceError → String
  | .notFound message => message
  | .forbidden message => message
  | .business code message => code ++ ": " ++ message

/-- An inbound webhook JSON body; a field is none when the key is absent
from the payload. -/
structure WebhookPayload where
  order_id : Option String
  transaction_status : Option String
  fraud_status : Option String
  status_code : Option String
  gross_amount : Option String
  signature_key : Option String
  payment_type : Option String
  transaction_id : Option String
  transaction_time : Option String
deriving Repr, DecidableEq

/-- The parsed notification dict returned by
PaymentService.parse_payment_notification. -/
structure MidtransNotification where
  order_id : String
  transaction_id : String
  transaction_status : String
  payment_status : String
  payment_type : String
  gross_amount : String
  status_code : String
  signature_key : String
  transaction_time : String
  fraud_status : String
deriving Repr, DecidableEq

/-- The status_mapping dict inside parse_payment_notification
(app/services/payment_service.py): gateway transaction status and fraud
status to internal payment status, defaulting to pending. -/
def status_mapping (transaction_status fraud_status : String) : String :=
  if transaction_status = "capture" then
    (if fraud_status = "accept" then "success" else "pending")
  else if transaction_status = "settlement" then "success"
  else if transaction_status = "pending" then "pending"
  else if transaction_status = "deny" then "failed"
  else if transaction_status = "expire" then "expired"
  else if transaction_status = "cancel" then "failed"
  else if transaction_status = "refund" then "refunded"
  else if transaction_status = "partial_refund" then "refunded"
  else "pending"

/-- PaymentService.parse_payment_notification: every field is read with a
default (empty string, and accept for fraud_status), then the gateway
status is mapped through status_mapping. -/
def parse_payment_notification (payload : WebhookPayload) : MidtransNotification :=
  let order_id := payload.order_id.getD ""
  let transaction_status := payload.transaction_status.getD ""
  let fraud_status := payload.fraud_status.getD "accept"
  let status_code := payload.status_code.getD ""
  let gross_amount := payload.gross_amount.getD ""
  let signature_key := payload.signature_key.getD ""
  let payment_type := payload.payment_type.getD ""
  let transaction_id := payload.transaction_id.getD ""
  let transaction_time := payload.transaction_time.getD ""
  { order_id := order_id,
    transaction_id := transaction_id,
    transaction_status := transaction_status,
    payment_status := status_mapping transaction_status fraud_status,
    payment_type := payment_type,
    gross_amount := gross_amount,
    status_code := status_code,
    signature_key := signature_key,
    transaction_time := transaction_time,
    fraud_status := fraud_status }

/-- PaymentService.verify_signature, parameterised by the SHA-512 hex digest
function. Returns false when the server key is unset, otherwise compares
the recomputed digest of order_id, status_code, gross_amount and the server
key against the provided signature. -/
def verify_signature (sha512hex : String → String) (serverKey : String)
    (order_id status_code gross_amount signature_key : String) : Bool :=
  if serverKey = "" then false
  else
    let signature_string := order_id ++ status_code ++ gross_amount ++ serverKey
    let calculated_signature := sha512hex signature_string
    calculated_signature == signature_key

/-- PaymentService.map_midtrans_payment_type: gateway payment type to the
internal payment method label, defaulting to the input itself. -/
def map_midtrans_payment_type (midtrans_payment_type : String) : String :=
  if midtrans_payment_type = "gopay" then "gopay"
  else if midtrans_payment_type = "shopeepay" then "shopeepay"
  else if midtrans_payment_type = "qris" then "dana"
  else if midtrans_payment_type = "bank_transfer" then "bank_transfer_bca"
  else if midtrans_payment_type = "bca_va" then "bank_transfer_bca"
  else if midtrans_payment_type = "bni_va" then "bank_transfer_bni"
  else if midtrans_payment_type = "bri_va" then "bank_transfer_bri"
  else if midtrans_payment_type = "permata_va" then "bank_transfer_mandiri"
  else if midtrans_payment_type = "echannel" then "bank_transfer_mandiri"
  else if midtrans_payment_type = "credit_card" then "credit_card"
  else midtrans_payment_type

/-- Lookup of a user row by id, given the user_id argument of
SubscriptionService.create_subscription; the router passes
payment.user_id, which is nullable, and a null id matches no row. -/
def findUser (users : List User) : Option String → Option User
  | none => none
  | some uid => users.find? (fun u => u.id == uid)

/-- In-place mutation of the subscription_tier of the first user row with
the given id, as done through the ORM identity map. -/
def setUserTier : List User → String → String → List User
  | [], _, _ => []
  | u :: us, uid, tier =>
    if u.id == uid then { u with subscription_tier := tier } :: us
    else u :: setUserTier us uid tier

/-- In-place mutation of the first subscription row with the given id. -/
def setSubscriptionById : List Subscription → String → Subscription → List Subscription
  | [], _, _ => []
  | s :: ss, sid, s1 =>
    if s.id == sid then s1 :: ss
    else s :: setSubscriptionById ss sid s1

/-- Lookup of a payment row by provider transaction id, as the webhook does
with its select on Payment.payment_provider_transaction_id. -/
def findPaymentByOrder (payments : List Payment) (order_id : String) : Option Payment :=
  payments.find? (fun p => p.payment_provider_transaction_id == order_id)

/-- In-place mutation of the first payment row whose provider transaction id
matches, as done through the ORM identity map on the row the webhook
fetched. -/
def setPaymentByOrder : List Payment → String → Payment → List Payment
  | [], _, _ => []
  | p :: ps, oid, p1 =>
    if p.payment_provider_transaction_id == oid then p1 :: ps
    else p :: setPaymentByOrder ps oid p1

/-- The plan to tier dict of SubscriptionService.create_subscription,
defaulting to the free tier. -/
def tier_mapping (plan_id : String) : String :=
  if plan_id = "free" then "free"
  else if plan_id = "personal" then "personal"
  else if plan_id = "plus" then "plus"
  else if plan_id = "premium" then "premium"
  else if plan_id = "cinta" then "plus"
  else if plan_id = "keluarga_yearly" then "plus"
  else if plan_id = "alumni" then "personal"
  else "free"

/-- The period computation of SubscriptionService.create_subscription:
monthly adds 30 days, yearly 365, one_time 36500, and every other billing
cycle falls into the default branch of 30 days. -/
def period_end_for (billing_cycle : String) (now : Nat) : Nat :=
  if billing_cycle = "monthly" then now + 30
  else if billing_cycle = "yearly" then now + 365
  else if billing_cycle = "one_time" then now + 36500
  else now + 30

/-- SubscriptionService.create_subscription. Checks user, plan and payment,
requires the payment to be successful, inserts an active subscription with
the computed period, and sets the user tier through tier_mapping; the
returned database is the committed state. The fresh row id and the current
time are parameters. -/
def create_subscription (db : Db) (user_id : Option String) (plan_id : String)
    (payment_id : String) (now : Nat) (newSubscriptionId : String) :
    Except ServiceError (Db × Subscription) :=
  match findUser db.users user_id with
  | none => .error (.notFound "Pengguna tidak ditemukan")
  | some user =>
    match get_plan plan_id with
    | none => .error (.business "INVALID_PLAN" "Paket subscription tidak ditemukan.")
    | some plan =>
      match db.payments.find? (fun p => p.id == payment_id) with
      | none => .error (.notFound "Pembayaran tidak ditemukan")
      | some payment =>
        if payment.status ≠ "success" then
          .error (.business "PAYMENT_NOT_SUCCESSFUL"
            "Pembayaran belum berhasil. Tidak bisa membuat subscription.")
        else
          let subscription : Subscription :=
            { id := newSubscriptionId,
              user_id := user.id,
              plan_id := plan_id,
              status := "active",
              payment_provider := "midtrans",
              current_period_start := now,
              current_period_end := period_end_for plan.billing_cycle now,
              cancelled_at := none }
          let new_tier := tier_mapping plan_id
          .ok ({ db with
                  subscriptions := db.subscriptions ++ [subscription],
                  users := setUserTier db.users user.id new_tier },
               subscription)

/-- SubscriptionService.cancel_subscription. Looks the subscription up,
checks ownership and that it is active, stamps cancelled_at, and when
immediate also sets the status to cancelled, truncates the period end to
now and downgrades the owning user to the free tier. -/
def cancel_subscription (db : Db) (subscription_id : String) (user_id : String)
    (immediate : Bool) (now : Nat) : Except ServiceError (Db × Subscription) :=
  match db.subscriptions.find? (fun s => s.id == subscription_id) with
  | none => .error (.notFound "Subscription tidak ditemukan")
  | some subscription =>
    if subscription.user_id ≠ user_id then
      .error (.forbidden "Kamu tidak punya akses ke subscription ini")
    else if subscription.status ≠ "active" then
      .error (.business "SUBSCRIPTION_NOT_ACTIVE"
        "Subscription tidak aktif. Tidak bisa dibatalkan.")
    else
      let sub1 := { subscription with cancelled_at := some now }
      if immediate then
        let sub2 := { sub1 with status := "cancelled", current_period_end := now }
        .ok ({ db with
                subscriptions := setSubscriptionById db.subscriptions subscription_id sub2,
                users := setUserTier db.users user_id "free" },
             sub2)
      else
        .ok ({ db with
                subscriptions := setSubscriptionById db.subscriptions subscription_id sub1 },
             sub1)

/-- Predicate selecting the rows the expiry sweeper processes: status is
active and the period end lies strictly before now. -/
def sweepQualifies (now : Nat) (s : Subscription) : Bool :=
  s.status == "active" && decide (s.current_period_end < now)

/-- SubscriptionService.expire_subscriptions. Selects every active
subscription whose period end is before now, sets each to expired,
downgrades each owning user to the free tier, and returns the processed
count; when the count is zero nothing is committed. -/
def expire_subscriptions (db : Db) (now : Nat) : Nat × Db :=
  let expired := db.subscriptions.filter (fun s => sweepQualifies now s)
  let count := expired.length
  if count > 0 then
    (count,
     { db with
        subscriptions := db.subscriptions.map
          (fun s => if sweepQualifies now s then { s with status := "expired" } else s),
        users := db.users.map
          (fun u => if expired.any (fun s => s.user_id == u.id) then
                      { u with subscription_tier := "free" }
                    else u) })
  else (0, db)

/-- The feature access matrix inside
SubscriptionService.check_feature_access: the tiers allowed for each of the
five gated features, defaulting to an empty allow list. -/
def feature_access_tiers (feature : String) : List String :=
  if feature = "time_capsule" then ["plus", "premium"]
  else if feature = "ai_enhancement" then ["plus", "premium"]
  else if feature = "export_pdf" then ["plus", "premium"]
  else if feature = "public_sharing" then ["premium"]
  else if feature = "analytics" then ["premium"]
  else []

/-- SubscriptionService.check_feature_access. The initial
get_current_subscription call raises not-found for a missing user (so the
later dead branch returning false is unreachable); for an existing user the
result is membership of the user tier in the feature allow list. -/
def check_feature_access (db : Db) (user_id : String) (feature : String) :
    Except ServiceError Bool :=
  match db.users.find? (fun u => u.id == user_id) with
  | none => .error (.notFound "Pengguna tidak ditemukan")
  | some user => .ok ((feature_access_tiers feature).contains user.subscription_tier)

/-- The always-200 structured body returned by the webhook endpoint,
together with the database state left behind once the request-scoped
session is closed (committed state, since uncommitted changes are
discarded). -/
structure WebhookResult where
  status : String
  message : String
  order_id : String
  db : Db
deriving Repr, DecidableEq

/-- The midtrans_webhook handler of app/api/v1/subscriptions/router.py.
Parses the payload, verifies the signature, locates the payment by order
id, short-circuits duplicate success notifications, applies the status
transition, and on a first transition into success recovers the plan from
the payment amount and activates a subscription. Every raised exception is
caught and answered with an error body while the uncommitted session state
is discarded, so each error branch returns the database unchanged. The
current time and the fresh subscription row id are parameters. -/
def midtrans_webhook (sha512hex : String → String) (serverKey : String)
    (now : Nat) (newSubscriptionId : String)
    (payload : WebhookPayload) (db : Db) : WebhookResult :=
  let n := parse_payment_notification payload
  if verify_signature sha512hex serverKey n.order_id n.status_code n.gross_amount n.signature_key then
    match findPaymentByOrder db.payments n.order_id with
    | none =>
      { status := "error",
        message := str_of_error (.notFound
          ("Pembayaran dengan order_id " ++ n.order_id ++ " tidak ditemukan")),
        order_id := payload.order_id.getD "unknown",
        db := db }
    | some payment =>
      if payment.status = "success" ∧ n.payment_status = "success" then
        { status := "ok",
          message := "Pembayaran sudah diproses sebelumnya",
          order_id := n.order_id,
          db := db }
      else
        let old_status := payment.status
        let payment1 : Payment :=
          if n.payment_status = "success" then
            { payment with
                status := n.payment_status,
                completed_at := some now,
                payment_method := some (map_midtrans_payment_type n.payment_type) }
          else
            { payment with status := n.payment_status }
        let s1 : Db := { db with payments := setPaymentByOrder db.payments n.order_id payment1 }
        if n.payment_status = "success" ∧ old_status ≠ "success" then
          match get_all_plans.find? (fun plan => plan.price_idr == payment.amount_idr) with
          | none =>
            { status := "error",
              message := str_of_error (.business "PLAN_NOT_FOUND"
                "Tidak bisa menentukan paket dari jumlah pembayaran"),
              order_id := payload.order_id.getD "unknown",
              db := db }
          | some plan =>
            match create_subscription s1 payment.user_id plan.plan_id payment.id
                now newSubscriptionId with
            | .error e =>
              { status := "error",
                message := str_of_error e,
                order_id := payload.order_id.getD "unknown",
                db := db }
            | .ok (s2, subscription) =>
              let payment2 := { payment1 with subscription_id := some subscription.id }
              let s3 : Db := { s2 with payments := setPaymentByOrder s2.payments n.order_id payment2 }
              { status := "ok",
                message := "Notifikasi pembayaran berhasil diproses",
                order_id := n.order_id,
                db := s3 }
        else
          { status := "ok",
            message := "Notifikasi pembayaran berhasil diproses",
            order_id := n.order_id,
            db := s1 }
  else
    { status := "error",
      message := str_of_error (.business "INVALID_SIGNATURE" "Signature tidak valid"),
      order_id := payload.order_id.getD "unknown",
      db := db }

/-- Repeated webhook delivery: folds a list of deliveries, each given by a
time, a fresh subscription row id and a payload, over the database. -/
def deliver_sequence (sha512hex : String → String) (serverKey : String)
    (deliveries : List (Nat × String × WebhookPayload)) (db : Db) : Db :=
  deliveries.foldl
    (fun d x => (midtrans_webhook sha512hex serverKey x.1 x.2.1 x.2.2 d).db) db

/-- The payment row as midtrans_webhook rewrites it on a success
notification: status overwritten, completed_at stamped with the current
time, and the payment method derived from the gateway payment type. -/
def successPaymentUpdate (p : Payment) (n : MidtransNotification) (now : Nat) : Payment :=
  { p with
      status := n.payment_status,
      completed_at := some now,
      payment_method := some (map_midtrans_payment_type n.payment_type) }

/-- Database for the C7 counterexample: one user and one already successful
payment; the plan catalog also carries the free plan, whose billing cycle
is lifetime. -/
def c7Db : Db :=
  { payments := [{ id := "p1", user_id := some "u1", subscription_id := none,
                   amount_idr := 0, payment_method := none,
                   payment_provider := some "midtrans",
                   payment_provider_transaction_id := "ORD7",
                   status := "success", completed_at := some 0 }],
    subscriptions := [],
    users := [{ id := "u1", subscription_tier := "free" }] }

/-- Concrete database for the C8 witness: one active subscription owned by
user u1 on the plus tier. -/
def c8Db : Db :=
  { payments := [],
    subscriptions := [{ id := "s1", user_id := "u1", plan_id := "plus",
                        status := "active", payment_provider := "midtrans",
                        current_period_start := 0, current_period_end := 40,
                        cancelled_at := none }],
    users := [{ id := "u1", subscription_tier := "plus" }] }

/-- Concrete database for the C9 witness: two subscriptions, one lapsed and
one still inside its period. -/
def c9Db : Db :=
  { payments := [],
    subscriptions :=
      [{ id := "s1", user_id := "u1", plan_id := "plus", status := "active",
         payment_provider := "midtrans", current_period_start := 0,
         current_period_end := 5, cancelled_at := none },
       { id := "s2", user_id := "u2", plan_id := "personal", status := "active",
         payment_provider := "midtrans", current_period_start := 0,
         current_period_end := 50, cancelled_at := none }],
    users := [{ id := "u1", subscription_tier := "plus" },
              { id := "u2", subscription_tier := "personal" }] }

/-- Concrete database for the C1 witness: a payment for order ORD1 that has
already been processed to success, with its subscription on file. -/
def c1Db : Db :=
  { payments := [{ id := "p1", user_id := some "u1", subscription_id := some "sub1",
                   amount_idr := 29000, payment_method := some "dana",
                   payment_provider := some "midtrans",
                   payment_provider_transaction_id := "ORD1",
                   status := "success", completed_at := some 1 }],
    subscriptions := [{ id := "sub1", user_id := "u1", plan_id := "personal",
                        status := "active", payment_provider := "midtrans",
                        current_period_start := 1, current_period_end := 31,
                        cancelled_at := none }],
    users := [{ id := "u1", subscription_tier := "personal" }] }

/-- Settlement notification payload for order ORD1, for the C1 witness. -/
def c1Payload : WebhookPayload :=
  { order_id := some "ORD1", transaction_status := some "settlement",
    fraud_status := some "accept", status_code := some "200",
    gross_amount := some "29000", signature_key := some "sig",
    payment_type := some "qris", transaction_id := some "T1",
    transaction_time := some "TT" }

/-- Concrete database for the C2 witness: a pending payment whose amount
matches no plan in the catalog, so processing a success notification for
it raises the plan-not-found business error. -/
def c2Db : Db :=
  { payments := [{ id := "p2", user_id := some "u1", subscription_id := none,
                   amount_idr := 12345, payment_method := none,
                   payment_provider := some "midtrans",
                   payment_provider_transaction_id := "ORD2",
                   status := "pending", completed_at := none }],
    subscriptions := [],
    users := [{ id := "u1", subscription_tier := "free" }] }

/-- Settlement notification payload for order ORD2, for the C2 witness. -/
def c2Payload : WebhookPayload :=
  { order_id := some "ORD2", transaction_status := some "settlement",
    fraud_status := some "accept", status_code := some "200",
    gross_amount := some "12345", signature_key := some "sig",
    payment_type := some "gopay", transaction_id := some "T2",
    transaction_time := some "TT" }

/-- Concrete database for the C3 counterexample: a pending payment for
order ORD3 whose amount matches the personal plan. -/
def c3Db0 : Db :=
  { payments := [{ id := "p3", user_id := some "u1", subscription_id := none,
                   amount_idr := 29000, payment_method := none,
                   payment_provider := some "midtrans",
                   payment_provider_transaction_id := "ORD3",
                   status := "pending", completed_at := none }],
    subscriptions := [],
    users := [{ id := "u1", subscription_tier := "free" }] }

/-- Settlement notification payload for order ORD3 (maps to success). -/
def c3Settlement : WebhookPayload :=
  { order_id := some "ORD3", transaction_status := some "settlement",
    fraud_status := some "accept", status_code := some "200",
    gross_amount := some "29000", signature_key := some "sig",
    payment_type := some "qris", transaction_id := some "T3",
    transaction_time := some "TT" }

/-- Late pending notification payload for order ORD3 (maps to pending). -/
def c3Pending : WebhookPayload :=
  { order_id := some "ORD3", transaction_status := some "pending",
    fraud_status := some "accept", status_code := some "201",
    gross_amount := some "29000", signature_key := some "sig",
    payment_type := some "qris", transaction_id := some "T3",
    transaction_time := some "TT" }

/-- State after delivering the first settlement notification at time 1. -/
def c3Db1 : Db :=
  (midtrans_webhook (fun _ => "sig") "serverkey" 1 "sub1" c3Settlement c3Db0).db

/-- State after the out-of-order pending notification at time 2. -/
def c3Db2 : Db :=
  (midtrans_webhook (fun _ => "sig") "serverkey" 2 "sub2" c3Pending c3Db1).db

/-- State after redelivering the settlement notification at time 3. -/
def c3Db3 : Db :=
  (midtrans_webhook (fun _ => "sig") "serverkey" 3 "sub3" c3Settlement c3Db2).db

/-- Concrete database for the C4 witness: a pending payment for order
ORD4. -/
def c4Db : Db :=
  { payments := [{ id := "p4", user_id := some "u1", subscription_id := none,
                   amount_idr := 29000, payment_method := none,
                   payment_provider := some "midtrans",
                   payment_provider_transaction_id := "ORD4",
                   status := "pending", completed_at := none }],
    subscriptions := [],
    users := [{ id := "u1", subscription_tier := "free" }] }

/-- Settlement notification payload for order ORD4 carrying a tampered
signature, for the C4 witness. -/
def c4Payload : WebhookPayload :=
  { order_id := some "ORD4", transaction_status := some "settlement",
    fraud_status := some "accept", status_code := some "200",
    gross_amount := some "29000", signature_key := some "tampered",
    payment_type := some "qris", transaction_id := some "T4",
    transaction_time := some "TT" }

/-- Helper: a found payment row matches the order id it was looked up by. -/
theorem findPaymentByOrder_matches {ps : List Payment} {oid : String} {p : Payment}
    (h : findPaymentByOrder ps oid = some p) :
    (p.payment_provider_transaction_id == oid) = true := by
  unfold findPaymentByOrder at h
  have hx := List.find?_some h
  simpa using hx

/-- Helper: replacing the looked-up payment row and looking it up again by
the same order id returns the replacement, provided the replacement keeps
the provider transaction id of the row it replaces. -/
theorem findPaymentByOrder_set (ps : List Payment) (oid : String) (p q : Payment)
    (hfind : findPaymentByOrder ps oid = some p)
    (hq : q.payment_provider_transaction_id = p.payment_provider_transaction_id) :
    findPaymentByOrder (setPaymentByOrder ps oid q) oid = some q := by
  induction ps with
  | nil => simp [findPaymentByOrder] at hfind
  | cons r rs ih =>
    unfold findPaymentByOrder at hfind ⊢
    unfold setPaymentByOrder
    by_cases h : (r.payment_provider_transaction_id == oid) = true
    · rw [if_pos h]
      simp only [List.find?, h] at hfind
      have hrp : r = p := Option.some.inj hfind
      have hqoid : (q.payment_provider_transaction_id == oid) = true := by
        rw [hq, ← hrp]; exact h
      simp [List.find?, hqoid]
    · rw [if_neg h]
      have hfalse : (r.payment_provider_transaction_id == oid) = false := by
        cases hb : (r.payment_provider_transaction_id == oid) with
        | false => rfl
        | true => exact absurd hb h
      simp only [List.find?, hfalse] at hfind
      have hres := ih hfind
      unfold findPaymentByOrder at hres
      simp [List.find?, hfalse, hres]

/-- Helper: a successful create_subscription call leaves the payments table
untouched and appends exactly the returned subscription row. -/
theorem create_subscription_ok_shape (db : Db) (uid : Option String)
    (pid payid : String) (now : Nat) (sid : String) (db2 : Db) (sub : Subscription)
    (h : create_subscription db uid pid payid now sid = .ok (db2, sub)) :
    db2.payments = db.payments
  ∧ db2.subscriptions = db.subscriptions ++ [sub]
  ∧ db2.users = setUserTier db.users
      ((findUser db.users uid).map User.id |>.getD "") (tier_mapping pid) := by
  unfold create_subscription at h
  cases hu : findUser db.users uid with
  | none => rw [hu] at h; exact absurd h (by simp)
  | some user =>
  rw [hu] at h
  cases hp : get_plan pid with
  | none => rw [hp] at h; exact absurd h (by simp)
  | some plan =>
  rw [hp] at h
  cases hpay : db.payments.find? (fun p => p.id == payid) with
  | none => rw [hpay] at h; exact absurd h (by simp)
  | some payment =>
  rw [hpay] at h
  dsimp only at h
  by_cases hs : payment.status ≠ "success"
  · rw [if_pos hs] at h; exact absurd h (by simp)
  · rw [if_neg hs] at h
    simp only [Except.ok.injEq, Prod.mk.injEq] at h
    obtain ⟨hdb2, hsub⟩ := h
    subst hdb2
    subst hsub
    exact ⟨rfl, rfl, rfl⟩

/-- Helper: whether create_subscription raises, and which error it raises,
does not depend on the current time, on the fresh row id, nor on payment
fields other than the status of the row found by payment id; two calls on
databases with the same users table and the same found-payment status
either raise the same error or both succeed. -/
theorem create_subscription_error_congr (dbA dbB : Db) (uid : Option String)
    (pid payid : String) (nA nB : Nat) (sA sB : String) (e : ServiceError)
    (husers : dbA.users = dbB.users)
    (hst : (dbA.payments.find? (fun p => p.id == payid)).map Payment.status
         = (dbB.payments.find? (fun p => p.id == payid)).map Payment.status)
    (h : create_subscription dbA uid pid payid nA sA = .error e) :
    create_subscription dbB uid pid payid nB sB = .error e := by
  unfold create_subscription at h ⊢
  rw [husers] at h
  cases hu : findUser dbB.users uid with
  | none => rw [hu] at h; exact h
  | some user =>
  rw [hu] at h
  cases hp : get_plan pid with
  | none => rw [hp] at h; exact h
  | some plan =>
  rw [hp] at h
  cases hpA : dbA.payments.find? (fun p => p.id == payid) with
  | none =>
    rw [hpA] at hst
    cases hpB : dbB.payments.find? (fun p => p.id == payid) with
    | none => rw [hpA] at h; exact h
    | some pB => rw [hpB] at hst; exact absurd hst (by simp)
  | some pA =>
    rw [hpA] at h hst
    cases hpB : dbB.payments.find? (fun p => p.id == payid) with
    | none => rw [hpB] at hst; exact absurd hst (by simp)
    | some pB =>
      rw [hpB] at hst
      have hsteq : pA.status = pB.status := by simpa using hst
      dsimp only at h ⊢
      by_cases hs : pA.status ≠ "success"
      · rw [if_pos hs] at h
        rw [if_pos (hsteq ▸ hs)]
        exact h
      · rw [if_neg hs] at h
        exact absurd h (by simp)

/-- Helper: replacing the row found by order id changes, for a lookup by
payment id, at most the payment fields of the replacement; two
replacements sharing id and status give lookups with the same mapped
status. -/
theorem find_status_setPayment (ps : List Payment) (oid payid : String)
    (q1 q2 : Payment) (hid : q1.id = q2.id) (hstq : q1.status = q2.status) :
    ((setPaymentByOrder ps oid q1).find? (fun p => p.id == payid)).map Payment.status
      = ((setPaymentByOrder ps oid q2).find? (fun p => p.id == payid)).map Payment.status := by
  induction ps with
  | nil => rfl
  | cons r rs ih =>
    unfold setPaymentByOrder
    by_cases h : (r.payment_provider_transaction_id == oid) = true
    · rw [if_pos h, if_pos h]
      simp only [List.find?, hid]
      cases hq : (q2.id == payid) with
      | true => simpa using hstq
      | false => rfl
    · rw [if_neg h, if_neg h]
      simp only [List.find?]
      cases hr : (r.id == payid) with
      | true => rfl
      | false => exact ih

/-- Helper: a webhook delivery whose recomputed signature does not match is
answered with the invalid-signature error body and leaves the database
untouched. -/
theorem webhook_invalid_sig_result (hash : String → String) (k : String)
    (t : Nat) (sid : String) (payload : WebhookPayload) (db : Db)
    (hv : verify_signature hash k (parse_payment_notification payload).order_id
        (parse_payment_notification payload).status_code
        (parse_payment_notification payload).gross_amount
        (parse_payment_notification payload).signature_key = false) :
    midtrans_webhook hash k t sid payload db
      = { status := "error",
          message := str_of_error (.business "INVALID_SIGNATURE" "Signature tidak valid"),
          order_id := payload.order_id.getD "unknown",
          db := db } := by
  unfold midtrans_webhook
  dsimp only
  rw [hv]
  rw [if_neg Bool.false_ne_true]

/-- Helper: a verified webhook delivery whose order id matches no payment
row is answered with the not-found error body and leaves the database
untouched. -/
theorem webhook_payment_not_found_result (hash : String → String) (k : String)
    (t : Nat) (sid : String) (payload : WebhookPayload) (db : Db)
    (hv : verify_signature hash k (parse_payment_notification payload).order_id
        (parse_payment_notification payload).status_code
        (parse_payment_notification payload).gross_amount
        (parse_payment_notification payload).signature_key = true)
    (hfind : findPaymentByOrder db.payments
        (parse_payment_notification payload).order_id = none) :
    midtrans_webhook hash k t sid payload db
      = { status := "error",
          message := str_of_error (.notFound
            ("Pembayaran dengan order_id "
              ++ (parse_payment_notification payload).order_id ++ " tidak ditemukan")),
          order_id := payload.order_id.getD "unknown",
          db := db } := by
  unfold midtrans_webhook
  dsimp only
  rw [hv, if_pos rfl, hfind]

/-- Helper: a verified webhook delivery for a payment already marked
success, carrying a notification that also maps to success, is answered
with the duplicate body and performs no mutation at all. -/
theorem webhook_duplicate_result (hash : String → String) (k : String)
    (t : Nat) (sid : String) (payload : WebhookPayload) (db : Db) (p : Payment)
    (hv : verify_signature hash k (parse_payment_notification payload).order_id
        (parse_payment_notification payload).status_code
        (parse_payment_notification payload).gross_amount
        (parse_payment_notification payload).signature_key = true)
    (hfind : findPaymentByOrder db.payments
        (parse_payment_notification payload).order_id = some p)
    (hs : p.status = "success")
    (hm : (parse_payment_notification payload).payment_status = "success") :
    midtrans_webhook hash k t sid payload db
      = { status := "ok",
          message := "Pembayaran sudah diproses sebelumnya",
          order_id := (parse_payment_notification payload).order_id,
          db := db } := by
  unfold midtrans_webhook
  dsimp only
  rw [hv, if_pos rfl, hfind]
  dsimp only
  rw [if_pos ⟨hs, hm⟩]

/-- Helper: whatever the signature outcome, a delivery that maps to success
for a payment already marked success leaves the database untouched. -/
theorem webhook_noop_db (hash : String → String) (k : String)
    (t : Nat) (sid : String) (payload : WebhookPayload) (db : Db) (p : Payment)
    (hfind : findPaymentByOrder db.payments
        (parse_payment_notification payload).order_id = some p)
    (hs : p.status = "success")
    (hm : (parse_payment_notification payload).payment_status = "success") :
    (midtrans_webhook hash k t sid payload db).db = db := by
  cases hv : verify_signature hash k (parse_payment_notification payload).order_id
      (parse_payment_notification payload).status_code
      (parse_payment_notification payload).gross_amount
      (parse_payment_notification payload).signature_key with
  | false => rw [webhook_invalid_sig_result hash k t sid payload db hv]
  | true => rw [webhook_duplicate_result hash k t sid payload db p hv hfind hs hm]

/-- Helper: the exact result of a verified delivery that maps to success
for a payment not yet marked success — the first-transition path: the
payment row is rewritten, the plan is recovered from the payment amount,
and a subscription activation is attempted, the whole outcome committed
only when activation succeeds. -/
theorem webhook_first_success_result (hash : String → String) (k : String)
    (t : Nat) (sid : String) (payload : WebhookPayload) (db : Db) (p : Payment)
    (hv : verify_signature hash k (parse_payment_notification payload).order_id
        (parse_payment_notification payload).status_code
        (parse_payment_notification payload).gross_amount
        (parse_payment_notification payload).signature_key = true)
    (hfind : findPaymentByOrder db.payments
        (parse_payment_notification payload).order_id = some p)
    (hps : ¬ p.status = "success")
    (hm : (parse_payment_notification payload).payment_status = "success") :
    midtrans_webhook hash k t sid payload db
      = match get_all_plans.find? (fun plan => plan.price_idr == p.amount_idr) with
        | none =>
          { status := "error",
            message := str_of_error (.business "PLAN_NOT_FOUND"
              "Tidak bisa menentukan paket dari jumlah pembayaran"),
            order_id := payload.order_id.getD "unknown",
            db := db }
        | some plan =>
          match create_subscription
              { db with payments := (setPaymentByOrder db.payments
                  (parse_payment_notification payload).order_id
                  (successPaymentUpdate p (parse_payment_notification payload) t)) }
              p.user_id plan.plan_id p.id t sid with
          | .error e =>
            { status := "error", message := str_of_error e,
              order_id := payload.order_id.getD "unknown", db := db }
          | .ok (s2, subscription) =>
            { status := "ok",
              message := "Notifikasi pembayaran berhasil diproses",
              order_id := (parse_payment_notification payload).order_id,
              db := { s2 with payments := (setPaymentByOrder s2.payments
                        (parse_payment_notification payload).order_id
                        { successPaymentUpdate p (parse_payment_notification payload) t with
                            subscription_id := some subscription.id }) } } := by
  unfold midtrans_webhook
  dsimp only
  rw [hv, if_pos rfl, hfind]
  dsimp only
  rw [if_neg (fun hc => hps hc.1), if_pos hm, if_pos ⟨hm, hps⟩]
  rfl

/-- Helper: a single webhook delivery inserts at most one subscription
row. -/
theorem webhook_growth (hash : String → String) (k : String) (t : Nat)
    (sid : String) (payload : WebhookPayload) (db : Db) :
    (midtrans_webhook hash k t sid payload db).db.subscriptions.length
      ≤ db.subscriptions.length + 1 := by
  unfold midtrans_webhook
  dsimp only
  split
  next =>
    split
    next => exact Nat.le_succ_of_le (Nat.le_refl _)
    next payment heq =>
      split
      next => exact Nat.le_succ_of_le (Nat.le_refl _)
      next =>
        split
        next =>
          split
          next => exact Nat.le_succ_of_le (Nat.le_refl _)
          next plan hplan =>
            split
            next e hcs => exact Nat.le_succ_of_le (Nat.le_refl _)
            next s2 subscription hcs =>
              obtain ⟨-, hsubs, -⟩ :=
                create_subscription_ok_shape _ _ _ _ _ _ _ _ hcs
              dsimp only
              rw [hsubs]
              simp
        next => exact Nat.le_succ_of_le (Nat.le_refl _)
  next => exact Nat.le_succ_of_le (Nat.le_refl _)

/-- Helper: delivering the same success-mapping notification twice is
idempotent on the database — whatever the first delivery left behind, the
second delivery leaves it unchanged, for any delivery times and fresh row
ids. -/
theorem webhook_success_idem (hash : String → String) (k : String)
    (payload : WebhookPayload) (db : Db) (t1 t2 : Nat) (sid1 sid2 : String)
    (hm : (parse_payment_notification payload).payment_status = "success") :
    (midtrans_webhook hash k t2 sid2 payload
        (midtrans_webhook hash k t1 sid1 payload db).db).db
      = (midtrans_webhook hash k t1 sid1 payload db).db := by
  cases hv : verify_signature hash k (parse_payment_notification payload).order_id
      (parse_payment_notification payload).status_code
      (parse_payment_notification payload).gross_amount
      (parse_payment_notification payload).signature_key with
  | false =>
    rw [webhook_invalid_sig_result hash k t1 sid1 payload db hv]
    rw [webhook_invalid_sig_result hash k t2 sid2 payload db hv]
  | true =>
    cases hfind : findPaymentByOrder db.payments
        (parse_payment_notification payload).order_id with
    | none =>
      rw [webhook_payment_not_found_result hash k t1 sid1 payload db hv hfind]
      rw [webhook_payment_not_found_result hash k t2 sid2 payload db hv hfind]
    | some p =>
      by_cases hps : p.status = "success"
      · rw [webhook_duplicate_result hash k t1 sid1 payload db p hv hfind hps hm]
        rw [webhook_duplicate_result hash k t2 sid2 payload db p hv hfind hps hm]
      · have hrun1 :=
          webhook_first_success_result hash k t1 sid1 payload db p hv hfind hps hm
        have hrun2 :=
          webhook_first_success_result hash k t2 sid2 payload db p hv hfind hps hm
        cases hplan : get_all_plans.find?
            (fun plan => plan.price_idr == p.amount_idr) with
        | none =>
          rw [hplan] at hrun1 hrun2
          dsimp only at hrun1 hrun2
          rw [hrun1, hrun2]
        | some plan =>
          rw [hplan] at hrun1 hrun2
          dsimp only at hrun1 hrun2
          cases hcs1 : create_subscription
              { db with payments := (setPaymentByOrder db.payments
                  (parse_payment_notification payload).order_id
                  (successPaymentUpdate p (parse_payment_notification payload) t1)) }
              p.user_id plan.plan_id p.id t1 sid1 with
          | error e =>
            rw [hcs1] at hrun1
            have hcs2 : create_subscription
                { db with payments := (setPaymentByOrder db.payments
                    (parse_payment_notification payload).order_id
                    (successPaymentUpdate p (parse_payment_notification payload) t2)) }
                p.user_id plan.plan_id p.id t2 sid2 = .error e := by
              apply create_subscription_error_congr
                { db with payments := (setPaymentByOrder db.payments
                    (parse_payment_notification payload).order_id
                    (successPaymentUpdate p (parse_payment_notification payload) t1)) }
                { db with payments := (setPaymentByOrder db.payments
                    (parse_payment_notification payload).order_id
                    (successPaymentUpdate p (parse_payment_notification payload) t2)) }
                p.user_id plan.plan_id p.id t1 t2 sid1 sid2 e rfl _ hcs1
              exact find_status_setPayment db.payments
                (parse_payment_notification payload).order_id p.id
                (successPaymentUpdate p (parse_payment_notification payload) t1)
                (successPaymentUpdate p (parse_payment_notification payload) t2)
                rfl rfl
            rw [hcs2] at hrun2
            rw [hrun1, hrun2]
          | ok pr =>
            obtain ⟨s2, subscription⟩ := pr
            rw [hcs1] at hrun1
            rw [hrun1]
            dsimp only
            obtain ⟨hpay2, -, -⟩ :=
              create_subscription_ok_shape _ _ _ _ _ _ _ _ hcs1
            have hfind1 : findPaymentByOrder
                (setPaymentByOrder db.payments
                  (parse_payment_notification payload).order_id
                  (successPaymentUpdate p (parse_payment_notification payload) t1))
                (parse_payment_notification payload).order_id
                = some (successPaymentUpdate p (parse_payment_notification payload) t1) :=
              findPaymentByOrder_set db.payments _ p _ hfind rfl
            have hfind2 : findPaymentByOrder s2.payments
                (parse_payment_notification payload).order_id
                = some (successPaymentUpdate p (parse_payment_notification payload) t1) := by
              rw [hpay2]; exact hfind1
            have hfind3 : findPaymentByOrder
                (setPaymentByOrder s2.payments
                  (parse_payment_notification payload).order_id
                  { successPaymentUpdate p (parse_payment_notification payload) t1 with
                      subscription_id := some subscription.id })
                (parse_payment_notification payload).order_id
                = some { successPaymentUpdate p (parse_payment_notification payload) t1 with
                          subscription_id := some subscription.id } :=
              findPaymentByOrder_set s2.payments _ _ _ hfind2 rfl
            exact webhook_noop_db hash k t2 sid2 payload _ _ hfind3 hm hm

/-- C1: a verified webhook notification whose order id locates a payment
already marked success, and which itself maps to success, is answered with
the duplicate body and performs no mutation whatsoever — the returned
database is the input database; moreover delivering the same
success-mapping notification twice is idempotent on the database for any
starting state, so two deliveries create at most one subscription row
beyond the starting state. -/
theorem webhook_duplicate_success_spec (hash : String → String) (k : String)
    (t : Nat) (sid : String) (payload : WebhookPayload) (db : Db) (p : Payment)
    (hv : verify_signature hash k (parse_payment_notification payload).order_id
        (parse_payment_notification payload).status_code
        (parse_payment_notification payload).gross_amount
        (parse_payment_notification payload).signature_key = true)
    (hp : findPaymentByOrder db.payments
        (parse_payment_notification payload).order_id = some p)
    (hs : p.status = "success")
    (hm : (parse_payment_notification payload).payment_status = "success") :
    midtrans_webhook hash k t sid payload db
      = { status := "ok",
          message := "Pembayaran sudah diproses sebelumnya",
          order_id := (parse_payment_notification payload).order_id,
          db := db }
  ∧ (∀ (db2 : Db) (t1 t2 : Nat) (sid1 sid2 : String),
      (midtrans_webhook hash k t2 sid2 payload
          (midtrans_webhook hash k t1 sid1 payload db2).db).db
        = (midtrans_webhook hash k t1 sid1 payload db2).db)
  ∧ (∀ (db2 : Db) (t1 t2 : Nat) (sid1 sid2 : String),
      (midtrans_webhook hash k t2 sid2 payload
          (midtrans_webhook hash k t1 sid1 payload db2).db).db.subscriptions.length
        ≤ db2.subscriptions.length + 1) := by
  refine ⟨webhook_duplicate_result hash k t sid payload db p hv hp hs hm, ?_, ?_⟩
  · intro db2 t1 t2 sid1 sid2
    exact webhook_success_idem hash k payload db2 t1 t2 sid1 sid2 hm
  · intro db2 t1 t2 sid1 sid2
    rw [webhook_success_idem hash k payload db2 t1 t2 sid1 sid2 hm]
    exact webhook_growth hash k t1 sid1 payload db2

/-- C1 witness: the theorem applied to the concrete already-processed
payment of c1Db and the settlement payload c1Payload. -/
theorem webhook_duplicate_success_witness :
    verify_signature (fun _ => "sig") "serverkey"
      (parse_payment_notification c1Payload).order_id
      (parse_payment_notification c1Payload).status_code
      (parse_payment_notification c1Payload).gross_amount
      (parse_payment_notification c1Payload).signature_key = true
  ∧ midtrans_webhook (fun _ => "sig") "serverkey" 9 "sub9" c1Payload c1Db
      = { status := "ok",
          message := "Pembayaran sudah diproses sebelumnya",
          order_id := "ORD1", db := c1Db }
  ∧ (midtrans_webhook (fun _ => "sig") "serverkey" 9 "sub9" c1Payload
        (midtrans_webhook (fun _ => "sig") "serverkey" 8 "sub8" c1Payload c1Db).db).db
      = (midtrans_webhook (fun _ => "sig") "serverkey" 8 "sub8" c1Payload c1Db).db := by
  have h := webhook_duplicate_success_spec (fun _ => "sig") "serverkey" 9 "sub9"
    c1Payload c1Db
    { id := "p1", user_id := some "u1", subscription_id := some "sub1",
      amount_idr := 29000, payment_method := some "dana",
      payment_provider := some "midtrans",
      payment_provider_transaction_id := "ORD1",
      status := "success", completed_at := some 1 }
    (by decide) rfl rfl rfl
  exact ⟨by decide, h.1, h.2.1 c1Db 8 9 "sub8" "sub9"⟩

/-- C2: every webhook delivery that is answered with an error body leaves
the persisted database exactly as it was before the delivery — all raised
exceptions occur before any commit, so the discarded session takes every
pending mutation with it — and every delivery is answered with either an
ok or an error body. -/
theorem webhook_failure_rolls_back (hash : String → String) (k : String)
    (t : Nat) (sid : String) (payload : WebhookPayload) (db : Db) :
    ((midtrans_webhook hash k t sid payload db).status = "error" →
      (midtrans_webhook hash k t sid payload db).db = db)
  ∧ ((midtrans_webhook hash k t sid payload db).status = "ok"
      ∨ (midtrans_webhook hash k t sid payload db).status = "error") := by
  unfold midtrans_webhook
  dsimp only
  repeat' split
  all_goals first
    | exact ⟨fun _ => rfl, Or.inr rfl⟩
    | exact ⟨fun h => absurd (show ("ok" : String) = "error" from h) (by decide),
             Or.inl rfl⟩

/-- C2 witness: the theorem applied to a success notification for a
payment whose amount matches no plan — the plan-not-found business error
path — showing the response is an error and the database is returned
unchanged, the pending payment still pending. -/
theorem webhook_failure_rolls_back_witness :
    (midtrans_webhook (fun _ => "sig") "serverkey" 1 "sub1" c2Payload c2Db).status
      = "error"
  ∧ (midtrans_webhook (fun _ => "sig") "serverkey" 1 "sub1" c2Payload c2Db).db
      = c2Db := by
  refine ⟨by decide, ?_⟩
  exact (webhook_failure_rolls_back (fun _ => "sig") "serverkey" 1 "sub1"
    c2Payload c2Db).1 (by decide)

/-- C3 counterexample: over the notification sequence settlement at time 1,
out-of-order pending at time 2, settlement redelivered at time 3 — all for
the same order ORD3 and all passing signature verification — completed_at
is assigned at time 1, the status is then overwritten to pending, and the
redelivered settlement assigns completed_at a second time (now time 3)
and creates a second subscription row; completed_at is therefore not
assigned exactly once over the sequence. -/
theorem webhook_completed_at_reset_counterexample :
    (findPaymentByOrder c3Db1.payments "ORD3").map Payment.completed_at
      = some (some 1)
  ∧ (findPaymentByOrder c3Db1.payments "ORD3").map Payment.status = some "success"
  ∧ c3Db1.subscriptions.length = 1
  ∧ (findPaymentByOrder c3Db2.payments "ORD3").map Payment.status = some "pending"
  ∧ (findPaymentByOrder c3Db2.payments "ORD3").map Payment.completed_at
      = some (some 1)
  ∧ (findPaymentByOrder c3Db3.payments "ORD3").map Payment.completed_at
      = some (some 3)
  ∧ c3Db3.subscriptions.length = 2 :=
  ⟨rfl, rfl, rfl, rfl, rfl, rfl, rfl⟩

/-- C3 amended: once the payment of an order is marked success, delivering
any further sequence of notifications for that order that all map to
success changes nothing — the status is never overwritten and completed_at
is never re-assigned; the exactly-once property of completed_at holds for
such sequences, but not for sequences containing an out-of-order
non-success notification, which overwrites the status and lets a later
success notification assign completed_at again. -/
theorem webhook_success_only_sequence_noop (hash : String → String) (k : String)
    (deliveries : List (Nat × String × WebhookPayload)) (db : Db)
    (oid : String) (p : Payment)
    (horder : ∀ x ∈ deliveries, (parse_payment_notification x.2.2).order_id = oid)
    (hsucc : ∀ x ∈ deliveries,
      (parse_payment_notification x.2.2).payment_status = "success")
    (hp : findPaymentByOrder db.payments oid = some p)
    (hs : p.status = "success") :
    deliver_sequence hash k deliveries db = db := by
  revert horder hsucc
  induction deliveries with
  | nil => intro _ _; rfl
  | cons x xs ih =>
    intro horder hsucc
    have hstep : (midtrans_webhook hash k x.1 x.2.1 x.2.2 db).db = db :=
      webhook_noop_db hash k x.1 x.2.1 x.2.2 db p
        (by rw [horder x (List.mem_cons_self x xs)]; exact hp)
        hs (hsucc x (List.mem_cons_self x xs))
    have hcons : deliver_sequence hash k (x :: xs) db
        = deliver_sequence hash k xs (midtrans_webhook hash k x.1 x.2.1 x.2.2 db).db :=
      rfl
    rw [hcons, hstep]
    exact ih (fun y hy => horder y (List.mem_cons_of_mem x hy))
      (fun y hy => hsucc y (List.mem_cons_of_mem x hy))

/-- C3 amended witness: the theorem applied to the state right after the
first successful settlement for ORD3, with one further success-mapping
delivery. -/
theorem webhook_success_only_sequence_noop_witness :
    deliver_sequence (fun _ => "sig") "serverkey" [(5, "sub5", c3Settlement)] c3Db1
      = c3Db1 := by
  apply webhook_success_only_sequence_noop (fun _ => "sig") "serverkey"
    [(5, "sub5", c3Settlement)] c3Db1 "ORD3"
    { id := "p3", user_id := some "u1", subscription_id := some "sub1",
      amount_idr := 29000, payment_method := some "dana",
      payment_provider := some "midtrans",
      payment_provider_transaction_id := "ORD3",
      status := "success", completed_at := some 1 }
  · intro x hx
    simp only [List.mem_cons, List.not_mem_nil, or_false] at hx
    subst hx
    rfl
  · intro x hx
    simp only [List.mem_cons, List.not_mem_nil, or_false] at hx
    subst hx
    rfl
  · rfl
  · rfl

/-- C4: a webhook payload whose signature key differs from the SHA-512 hex
digest of order id, status code, gross amount and the server key — for
whatever digest function — is answered with the invalid-signature error
body and produces zero mutations: the returned database is exactly the
input database, so no payment row changes, no subscription is created, no
tier changes, and a pending payment for that order remains pending. -/
theorem webhook_invalid_signature_rejected (hash : String → String) (k : String)
    (t : Nat) (sid : String) (payload : WebhookPayload) (db : Db)
    (hbad : (parse_payment_notification payload).signature_key
        ≠ hash ((parse_payment_notification payload).order_id
            ++ (parse_payment_notification payload).status_code
            ++ (parse_payment_notification payload).gross_amount ++ k)) :
    midtrans_webhook hash k t sid payload db
      = { status := "error",
          message := str_of_error (.business "INVALID_SIGNATURE" "Signature tidak valid"),
          order_id := payload.order_id.getD "unknown",
          db := db } := by
  apply webhook_invalid_sig_result
  unfold verify_signature
  by_cases hk : k = ""
  · rw [if_pos hk]
  · rw [if_neg hk]
    dsimp only
    rw [beq_eq_false_iff_ne]
    exact fun h => hbad h.symm

/-- C4 witness: the theorem applied to the tampered payload c4Payload;
the pending payment of c4Db remains pending because the whole database is
returned unchanged. -/
theorem webhook_invalid_signature_rejected_witness :
    (parse_payment_notification c4Payload).signature_key
      ≠ ((fun _ => "goodsig") : String → String)
          ((parse_payment_notification c4Payload).order_id
            ++ (parse_payment_notification c4Payload).status_code
            ++ (parse_payment_notification c4Payload).gross_amount ++ "serverkey")
  ∧ midtrans_webhook (fun _ => "goodsig") "serverkey" 1 "sub1" c4Payload c4Db
      = { status := "error",
          message := str_of_error (.business "INVALID_SIGNATURE" "Signature tidak valid"),
          order_id := "ORD4",
          db := c4Db } := by
  refine ⟨by decide, ?_⟩
  exact webhook_invalid_signature_rejected (fun _ => "goodsig") "serverkey" 1 "sub1"
    c4Payload c4Db (by decide)

/-- C5: the gateway-to-internal status mapping of
parse_payment_notification maps capture with fraud accept to success,
capture with any other fraud status to pending, settlement to success,
pending to pending, deny to failed, expire to expired, cancel to failed,
refund and partial_refund to refunded, and every unrecognised transaction
status to pending; no unrecognised status ever maps to success, and the
parsed notification carries exactly this mapping of its two fields. -/
theorem status_mapping_table (ts fs g : String) (hfs : fs ≠ "accept")
    (hts : ts ∉ ["capture", "settlement", "pending", "deny", "expire",
                 "cancel", "refund", "partial_refund"]) :
    status_mapping "capture" "accept" = "success"
  ∧ status_mapping "capture" fs = "pending"
  ∧ status_mapping "settlement" g = "success"
  ∧ status_mapping "pending" g = "pending"
  ∧ status_mapping "deny" g = "failed"
  ∧ status_mapping "expire" g = "expired"
  ∧ status_mapping "cancel" g = "failed"
  ∧ status_mapping "refund" g = "refunded"
  ∧ status_mapping "partial_refund" g = "refunded"
  ∧ status_mapping ts g = "pending"
  ∧ (∀ u v : String, status_mapping u v = "success" →
      u = "settlement" ∨ (u = "capture" ∧ v = "accept"))
  ∧ (∀ payload : WebhookPayload,
      (parse_payment_notification payload).payment_status
        = status_mapping (payload.transaction_status.getD "")
            (payload.fraud_status.getD "accept")) := by
  simp only [List.mem_cons, List.not_mem_nil, or_false, not_or] at hts
  obtain ⟨h1, h2, h3, h4, h5, h6, h7, h8⟩ := hts
  refine ⟨rfl, ?_, rfl, rfl, rfl, rfl, rfl, rfl, rfl, ?_, ?_, ?_⟩
  · simp [status_mapping, hfs]
  · simp [status_mapping, h1, h2, h3, h4, h5, h6, h7, h8]
  · intro u v h
    unfold status_mapping at h
    repeat' split at h
    all_goals first
      | (exact absurd h (by decide))
      | (rename_i hu hv; exact Or.inr ⟨hu, hv⟩)
      | (rename_i hu; exact Or.inl hu)
  · intro payload
    rfl

/-- C5 witness: the theorem instantiated at a fraud status other than
accept and at an unrecognised transaction status. -/
theorem status_mapping_table_witness :
    status_mapping "capture" "accept" = "success"
  ∧ status_mapping "capture" "challenge" = "pending"
  ∧ status_mapping "authorize" "accept" = "pending" := by
  have h := status_mapping_table "authorize" "challenge" "accept"
    (by decide) (by decide)
  exact ⟨h.1, h.2.1, h.2.2.2.2.2.2.2.2.2.1⟩

/-- C6 counterexample: a payload from which the required field order_id is
absent is not reported as a parse failure; parse_payment_notification
proceeds and returns a notification in which the missing order_id has been
substituted by the empty string. -/
theorem parse_missing_field_counterexample :
    parse_payment_notification
      { order_id := none, transaction_status := some "settlement",
        fraud_status := some "accept", status_code := some "200",
        gross_amount := some "29000", signature_key := some "sig",
        payment_type := some "qris", transaction_id := some "T1",
        transaction_time := some "TT" }
    = { order_id := "", transaction_id := "T1", transaction_status := "settlement",
        payment_status := "success", payment_type := "qris",
        gross_amount := "29000", status_code := "200", signature_key := "sig",
        transaction_time := "TT", fraud_status := "accept" } := by
  rfl

/-- C6 amended: a missing required field is not a parse failure; for every
payload, parse_payment_notification substitutes the empty string for each
absent field except fraud_status, which defaults to accept, and always
returns a notification whose payment status is the mapping of the two
substituted gateway fields. -/
theorem parse_substitutes_defaults (payload : WebhookPayload) :
    (parse_payment_notification payload).order_id = payload.order_id.getD ""
  ∧ (parse_payment_notification payload).transaction_status
      = payload.transaction_status.getD ""
  ∧ (parse_payment_notification payload).fraud_status
      = payload.fraud_status.getD "accept"
  ∧ (parse_payment_notification payload).status_code = payload.status_code.getD ""
  ∧ (parse_payment_notification payload).gross_amount = payload.gross_amount.getD ""
  ∧ (parse_payment_notification payload).signature_key = payload.signature_key.getD ""
  ∧ (parse_payment_notification payload).payment_type = payload.payment_type.getD ""
  ∧ (parse_payment_notification payload).transaction_id
      = payload.transaction_id.getD ""
  ∧ (parse_payment_notification payload).transaction_time
      = payload.transaction_time.getD ""
  ∧ (parse_payment_notification payload).payment_status
      = status_mapping (payload.transaction_status.getD "")
          (payload.fraud_status.getD "accept") :=
  ⟨rfl, rfl, rfl, rfl, rfl, rfl, rfl, rfl, rfl, rfl⟩

/-- C7 counterexample: the free plan has billing cycle lifetime, yet a
successful create_subscription call for it computes a period end of
now plus 30 days, not now plus 36500 days: only the literal one_time cycle
reaches the 36500-day branch, and lifetime falls into the 30-day default. -/
theorem create_subscription_lifetime_counterexample :
    (get_plan "free").map (fun p => p.billing_cycle) = some "lifetime"
  ∧ (create_subscription c7Db (some "u1") "free" "p1" 0 "s1").map
      (fun r => r.2.current_period_end) = Except.ok 30
  ∧ (30 : Nat) ≠ 0 + 36500 :=
  ⟨rfl, rfl, by decide⟩

/-- C7 amended: every successful create_subscription call sets the period
start to now and the status to active, and computes the period end from
the billing cycle of the purchased plan as monthly to now plus 30 days,
yearly to 365, one_time to 36500, and every other cycle — including
lifetime and per_person_yearly — to the 30-day default; instantiated over
the catalog, the monthly plans personal, plus and premium and the lifetime
and per_person_yearly plans free and alumni all get now plus 30 days,
keluarga_yearly gets 365 and cinta gets 36500. -/
theorem create_subscription_period_spec (db : Db) (uid : Option String)
    (plan_id payment_id : String) (now : Nat) (sid : String)
    (db2 : Db) (sub : Subscription)
    (h : create_subscription db uid plan_id payment_id now sid = .ok (db2, sub)) :
    sub.current_period_start = now ∧ sub.status = "active"
  ∧ (∃ plan, get_plan plan_id = some plan
        ∧ sub.current_period_end = period_end_for plan.billing_cycle now)
  ∧ (plan_id = "personal" ∨ plan_id = "plus" ∨ plan_id = "premium"
       → sub.current_period_end = now + 30)
  ∧ (plan_id = "keluarga_yearly" → sub.current_period_end = now + 365)
  ∧ (plan_id = "cinta" → sub.current_period_end = now + 36500)
  ∧ (plan_id = "free" → sub.current_period_end = now + 30)
  ∧ (plan_id = "alumni" → sub.current_period_end = now + 30) := by
  unfold create_subscription at h
  cases hu : findUser db.users uid with
  | none => rw [hu] at h; exact absurd h (by simp)
  | some user =>
  rw [hu] at h
  cases hp : get_plan plan_id with
  | none => rw [hp] at h; exact absurd h (by simp)
  | some plan =>
  rw [hp] at h
  cases hpay : db.payments.find? (fun p => p.id == payment_id) with
  | none => rw [hpay] at h; exact absurd h (by simp)
  | some payment =>
  rw [hpay] at h
  dsimp only at h
  by_cases hs : payment.status ≠ "success"
  · rw [if_pos hs] at h; exact absurd h (by simp)
  · rw [if_neg hs] at h
    simp only [Except.ok.injEq, Prod.mk.injEq] at h
    obtain ⟨-, hsub⟩ := h
    subst hsub
    refine ⟨rfl, rfl, ⟨plan, rfl, rfl⟩, ?_, ?_, ?_, ?_, ?_⟩
    · rintro (hid | hid | hid) <;> subst hid
      · cases (Option.some.inj hp :
          ({ plan_id := "personal", price_idr := 29000,
             billing_cycle := "monthly" } : SubscriptionPlan) = plan)
        rfl
      · cases (Option.some.inj hp :
          ({ plan_id := "plus", price_idr := 79000,
             billing_cycle := "monthly" } : SubscriptionPlan) = plan)
        rfl
      · cases (Option.some.inj hp :
          ({ plan_id := "premium", price_idr := 149000,
             billing_cycle := "monthly" } : SubscriptionPlan) = plan)
        rfl
    · intro hid; subst hid
      cases (Option.some.inj hp :
        ({ plan_id := "keluarga_yearly", price_idr := 499000,
           billing_cycle := "yearly" } : SubscriptionPlan) = plan)
      rfl
    · intro hid; subst hid
      cases (Option.some.inj hp :
        ({ plan_id := "cinta", price_idr := 299000,
           billing_cycle := "one_time" } : SubscriptionPlan) = plan)
      rfl
    · intro hid; subst hid
      cases (Option.some.inj hp :
        ({ plan_id := "free", price_idr := 0,
           billing_cycle := "lifetime" } : SubscriptionPlan) = plan)
      rfl
    · intro hid; subst hid
      cases (Option.some.inj hp :
        ({ plan_id := "alumni", price_idr := 50000,
           billing_cycle := "per_person_yearly" } : SubscriptionPlan) = plan)
      rfl

/-- C7 amended witness: the theorem applied to a concrete successful call
for the cinta one_time plan. -/
theorem create_subscription_period_spec_witness :
    ∃ db2 sub, create_subscription c7Db (some "u1") "cinta" "p1" 0 "s1"
        = .ok (db2, sub)
      ∧ sub.current_period_start = 0 ∧ sub.status = "active"
      ∧ sub.current_period_end = 0 + 36500 := by
  have h : create_subscription c7Db (some "u1") "cinta" "p1" 0 "s1"
      = .ok ({ c7Db with
                subscriptions := c7Db.subscriptions ++
                  [⟨"s1", "u1", "cinta", "active", "midtrans", 0, 36500, none⟩],
                users := setUserTier c7Db.users "u1" "plus" },
             ⟨"s1", "u1", "cinta", "active", "midtrans", 0, 36500, none⟩) := rfl
  have hspec := create_subscription_period_spec c7Db (some "u1") "cinta" "p1" 0 "s1"
    _ _ h
  exact ⟨_, _, h, hspec.1, hspec.2.1, hspec.2.2.2.2.2.1 rfl⟩

/-- C10: check_feature_access answers false for every tier when the
requested feature is outside the five-feature matrix, and answers false
for every feature of the matrix when the tier of the user is free or
personal — the personal tier is granted none of the gated features. -/
theorem check_feature_access_matrix (tier feature : String)
    (hf : feature ∉ ["time_capsule", "ai_enhancement", "export_pdf",
                     "public_sharing", "analytics"]) :
    check_feature_access
      { payments := [], subscriptions := [],
        users := [{ id := "u1", subscription_tier := tier }] } "u1" feature
      = .ok false
  ∧ (∀ f ∈ ["time_capsule", "ai_enhancement", "export_pdf",
            "public_sharing", "analytics"],
      ∀ t ∈ ["free", "personal"],
        check_feature_access
          { payments := [], subscriptions := [],
            users := [{ id := "u1", subscription_tier := t }] } "u1" f
          = .ok false) := by
  constructor
  · simp only [List.mem_cons, List.not_mem_nil, or_false, not_or] at hf
    obtain ⟨h1, h2, h3, h4, h5⟩ := hf
    simp [check_feature_access, List.find?, feature_access_tiers, h1, h2, h3, h4, h5]
  · intro f hf t ht
    simp only [List.mem_cons, List.not_mem_nil, or_false] at hf ht
    rcases ht with h | h <;> subst h <;>
      rcases hf with h | h | h | h | h <;> subst h <;> rfl

/-- C8: for a subscription on file, cancel_subscription by its owner while
it is active stamps cancelled_at and, when immediate, additionally sets the
status to cancelled, truncates the period end to now and resets the owning
user tier to free, while a deferred cancel changes nothing else — status
stays active, the period end stays, and the users table is untouched; a
call by a non-owner fails with the forbidden error and a call by the owner
on a non-active subscription fails with the not-active business error, and
both failures raise before any mutation, so the discarded session leaves
the database as it was. -/
theorem cancel_subscription_spec (db : Db) (sid uid : String) (now : Nat)
    (sub : Subscription)
    (hfind : db.subscriptions.find? (fun s => s.id == sid) = some sub) :
    (sub.user_id = uid → sub.status = "active" →
        cancel_subscription db sid uid true now
          = .ok ({ db with
                    subscriptions := setSubscriptionById db.subscriptions sid
                      { sub with cancelled_at := some now, status := "cancelled",
                                 current_period_end := now },
                    users := setUserTier db.users uid "free" },
                 { sub with cancelled_at := some now, status := "cancelled",
                            current_period_end := now }))
  ∧ (sub.user_id = uid → sub.status = "active" →
        cancel_subscription db sid uid false now
          = .ok ({ db with
                    subscriptions := setSubscriptionById db.subscriptions sid
                      { sub with cancelled_at := some now } },
                 { sub with cancelled_at := some now }))
  ∧ (∀ b : Bool, sub.user_id ≠ uid →
        cancel_subscription db sid uid b now
          = .error (.forbidden "Kamu tidak punya akses ke subscription ini"))
  ∧ (∀ b : Bool, sub.status ≠ "active" → sub.user_id = uid →
        cancel_subscription db sid uid b now
          = .error (.business "SUBSCRIPTION_NOT_ACTIVE"
              "Subscription tidak aktif. Tidak bisa dibatalkan.")) := by
  unfold cancel_subscription
  rw [hfind]
  dsimp only
  refine ⟨?_, ?_, ?_, ?_⟩
  · intro h1 h2
    simp [h1, h2]
  · intro h1 h2
    simp [h1, h2]
  · intro b h1
    simp [h1]
  · intro b h1 h2
    simp [h1, h2]

/-- C8 witness: the theorem applied to the concrete database, for an
immediate owner cancel and for a non-owner call. -/
theorem cancel_subscription_spec_witness :
    cancel_subscription c8Db "s1" "u1" true 7
      = .ok ({ c8Db with
                subscriptions := [{ id := "s1", user_id := "u1", plan_id := "plus",
                                    status := "cancelled",
                                    payment_provider := "midtrans",
                                    current_period_start := 0,
                                    current_period_end := 7,
                                    cancelled_at := some 7 }],
                users := [{ id := "u1", subscription_tier := "free" }] },
             { id := "s1", user_id := "u1", plan_id := "plus",
               status := "cancelled", payment_provider := "midtrans",
               current_period_start := 0, current_period_end := 7,
               cancelled_at := some 7 })
  ∧ cancel_subscription c8Db "s1" "u2" false 7
      = .error (.forbidden "Kamu tidak punya akses ke subscription ini") := by
  constructor
  · exact (cancel_subscription_spec c8Db "s1" "u1" 7 _ rfl).1 rfl rfl
  · exact (cancel_subscription_spec c8Db "s1" "u2" 7 _ rfl).2.2.1 false (by decide)

/-- Helper: a subscription the sweeper has rewritten to expired no longer
qualifies, so filtering the swept list for qualifying rows yields nothing. -/
theorem sweep_filter_nil (now : Nat) (l : List Subscription) :
    (l.map (fun s => if sweepQualifies now s then { s with status := "expired" } else s)).filter
      (fun s => sweepQualifies now s) = [] := by
  induction l with
  | nil => rfl
  | cons s ss ih =>
    simp only [List.map_cons, List.filter_cons]
    cases h : sweepQualifies now s with
    | true =>
      have hexp : sweepQualifies now
          ({ s with status := "expired" } : Subscription) = false := by
        simp [sweepQualifies]
      simp [hexp, ih]
    | false =>
      simp [h, ih]

/-- C9: one sweeper run returns the number of subscriptions that are active
with a period end before now; every non-qualifying subscription survives
unchanged and every qualifying one reappears with status expired; a user
owning no qualifying subscription is untouched and a user owning one is
downgraded to the free tier; and an immediate second run finds nothing,
returns 0 and leaves the swept database exactly as it is. -/
theorem expire_subscriptions_spec (db : Db) (now : Nat) :
    (expire_subscriptions db now).1
      = (db.subscriptions.filter (fun s => sweepQualifies now s)).length
  ∧ (∀ s ∈ db.subscriptions, sweepQualifies now s = false →
      s ∈ (expire_subscriptions db now).2.subscriptions)
  ∧ (∀ s ∈ db.subscriptions, sweepQualifies now s = true →
      { s with status := "expired" } ∈ (expire_subscriptions db now).2.subscriptions)
  ∧ (∀ u ∈ db.users,
      (∀ s ∈ db.subscriptions, sweepQualifies now s = true → s.user_id ≠ u.id) →
      u ∈ (expire_subscriptions db now).2.users)
  ∧ (∀ u ∈ db.users,
      (∃ s, s ∈ db.subscriptions ∧ sweepQualifies now s = true ∧ s.user_id = u.id) →
      { u with subscription_tier := "free" } ∈ (expire_subscriptions db now).2.users)
  ∧ expire_subscriptions (expire_subscriptions db now).2 now
      = (0, (expire_subscriptions db now).2) := by
  by_cases hc : (db.subscriptions.filter (fun s => sweepQualifies now s)).length > 0
  case neg =>
    have hnil : db.subscriptions.filter (fun s => sweepQualifies now s) = [] :=
      List.length_eq_zero.mp (Nat.eq_zero_of_not_pos hc)
    have hres : expire_subscriptions db now = (0, db) := by
      unfold expire_subscriptions
      rw [if_neg hc]
    rw [hres]
    refine ⟨by rw [hnil]; rfl, fun s hs _ => hs, ?_, fun u hu _ => hu, ?_, by rw [hres]⟩
    · intro s hs hq
      exact absurd (List.mem_filter.mpr ⟨hs, hq⟩) (by rw [hnil]; exact List.not_mem_nil s)
    · rintro u hu ⟨s, hs, hq, -⟩
      exact absurd (List.mem_filter.mpr ⟨hs, hq⟩) (by rw [hnil]; exact List.not_mem_nil s)
  case pos =>
    have hres : expire_subscriptions db now
        = ((db.subscriptions.filter (fun s => sweepQualifies now s)).length,
           { db with
              subscriptions := db.subscriptions.map
                (fun s => if sweepQualifies now s then { s with status := "expired" } else s),
              users := db.users.map
                (fun u => if (db.subscriptions.filter (fun s => sweepQualifies now s)).any
                              (fun s => s.user_id == u.id) then
                            { u with subscription_tier := "free" }
                          else u) }) := by
      unfold expire_subscriptions
      rw [if_pos hc]
    rw [hres]
    dsimp only
    refine ⟨rfl, ?_, ?_, ?_, ?_, ?_⟩
    · intro s hs hq
      have hmem := List.mem_map_of_mem
        (fun s => if sweepQualifies now s then { s with status := "expired" } else s) hs
      dsimp only at hmem
      rwa [if_neg (by rw [hq]; exact Bool.false_ne_true)] at hmem
    · intro s hs hq
      have hmem := List.mem_map_of_mem
        (fun s => if sweepQualifies now s then { s with status := "expired" } else s) hs
      dsimp only at hmem
      rwa [if_pos hq] at hmem
    · intro u hu hnone
      have hany : (db.subscriptions.filter (fun s => sweepQualifies now s)).any
          (fun s => s.user_id == u.id) = false := by
        apply List.any_eq_false.mpr
        intro s hsf
        obtain ⟨hs, hq⟩ := List.mem_filter.mp hsf
        simpa using hnone s hs hq
      have hmem := List.mem_map_of_mem
        (fun u => if (db.subscriptions.filter (fun s => sweepQualifies now s)).any
                      (fun s => s.user_id == u.id) then
                    { u with subscription_tier := "free" }
                  else u) hu
      dsimp only at hmem
      rwa [if_neg (by rw [hany]; exact Bool.false_ne_true)] at hmem
    · rintro u hu ⟨s, hs, hq, hid⟩
      have hany : (db.subscriptions.filter (fun s => sweepQualifies now s)).any
          (fun s => s.user_id == u.id) = true := by
        apply List.any_eq_true.mpr
        exact ⟨s, List.mem_filter.mpr ⟨hs, hq⟩, by simpa using hid⟩
      have hmem := List.mem_map_of_mem
        (fun u => if (db.subscriptions.filter (fun s => sweepQualifies now s)).any
                      (fun s => s.user_id == u.id) then
                    { u with subscription_tier := "free" }
                  else u) hu
      dsimp only at hmem
      rwa [if_pos hany] at hmem
    · unfold expire_subscriptions
      rw [if_neg]
      simp only [sweep_filter_nil, List.length_nil]
      exact Nat.lt_irrefl 0

/-- C9 witness: the theorem applied to the concrete database at time 10;
the lapsed subscription is counted and rewritten, the live one survives,
and the second pass is a no-op. -/
theorem expire_subscriptions_spec_witness :
    (expire_subscriptions c9Db 10).1 = 1
  ∧ ({ id := "s1", user_id := "u1", plan_id := "plus", status := "expired",
       payment_provider := "midtrans", current_period_start := 0,
       current_period_end := 5, cancelled_at := none } : Subscription)
      ∈ (expire_subscriptions c9Db 10).2.subscriptions
  ∧ ({ id := "u2", subscription_tier := "personal" } : User)
      ∈ (expire_subscriptions c9Db 10).2.users
  ∧ expire_subscriptions (expire_subscriptions c9Db 10).2 10
      = (0, (expire_subscriptions c9Db 10).2) := by
  obtain ⟨h1, h2, h3, h4, h5, h6⟩ := expire_subscriptions_spec c9Db 10
  refine ⟨by rw [h1]; rfl, ?_, ?_, h6⟩
  · exact h3 { id := "s1", user_id := "u1", plan_id := "plus", status := "active",
               payment_provider := "midtrans", current_period_start := 0,
               current_period_end := 5, cancelled_at := none }
      (by simp [c9Db]) (by decide)
  · refine h4 { id := "u2", subscription_tier := "personal" } (by simp [c9Db]) ?_
    intro s hs hq
    simp only [c9Db, List.mem_cons, List.not_mem_nil, or_false] at hs
    rcases hs with h | h <;> subst h
    · decide
    · exact absurd hq (by decide)

/-- C10 witness: the theorem applied at an unrecognised feature for the
premium tier, and a matrix feature for the personal tier. -/
theorem check_feature_access_matrix_witness :
    check_feature_access
      { payments := [], subscriptions := [],
        users := [{ id := "u1", subscription_tier := "premium" }] } "u1"
      "custom_domain" = .ok false
  ∧ check_feature_access
      { payments := [], subscriptions := [],
        users := [{ id := "u1", subscription_tier := "personal" }] } "u1"
      "time_capsule" = .ok false := by
  refine ⟨(check_feature_access_matrix "premium" "custom_domain" (by decide)).1, ?_⟩
  exact (check_feature_access_matrix "premium" "custom_domain" (by decide)).2
    "time_capsule" (by decide) "personal" (by decide)
